import Mathlib

/-!
Verification development for the AI-powered email cleaner and unsubscriber.

The development is a shallow embedding of the two core modules:
`ai_email_analyzer.py` (classification engine) and `smart_unsubscriber.py`
(unsubscribe automation engine).  Python strings are modelled as `String`
(operated on through their `List Char` data to keep everything kernel-
computable), Python floats as `ℚ`, Python ints as `ℤ`.  Calls into external
collaborators (the Gemini generation service, `json.loads`, BeautifulSoup
parsing, the HTTP session, `urllib.parse.urljoin`, and Python's hash-based
`set` iteration order) are modelled as explicit oracle parameters; everything
written in the repository itself is translated directly.
-/

/-! ## Python string primitives -/

/-- Python `\s` (whitespace) character class, restricted to the ASCII
whitespace characters. -/
def pyIsSpace (c : Char) : Bool :=
  c = ' ' || c = '\t' || c = '\n' || c = '\r' || c = '\x0b' || c = '\x0c'

/-- ASCII case folding of one character, as `str.lower` acts on the ASCII
range (all strings compared by the repository are ASCII). -/
def pyLowerChar (c : Char) : Char := c.toLower

/-- Python `str.lower` on the character list of a string. -/
def pyLowerL (l : List Char) : List Char := l.map pyLowerChar

/-- Python `str.lower`. -/
def pyLower (s : String) : String := String.mk (pyLowerL s.data)

/-- Strip characters satisfying `p` from both ends of a character list
(Python `str.strip` family). -/
def pyStripBy (p : Char → Bool) (l : List Char) : List Char :=
  ((l.dropWhile p).reverse.dropWhile p).reverse

/-- Python `str.strip()` (no argument: strip whitespace). -/
def pyStripL (l : List Char) : List Char := pyStripBy pyIsSpace l

/-- Python `str.strip(chars)`: strips any character belonging to the set
`cs` from both ends (NOT removal of the literal substring). -/
def pyStripCharsL (cs : List Char) (l : List Char) : List Char :=
  pyStripBy (fun c => cs.contains c) l

/-- Python `str.strip()` on strings. -/
def pyStrip (s : String) : String := String.mk (pyStripL s.data)

/-- Substring test on character lists: is `needle` a contiguous infix? -/
def subIn (needle : List Char) : List Char → Bool
  | [] => needle.isEmpty
  | c :: t => needle.isPrefixOf (c :: t) || subIn needle t

/-- Python `needle in hay` on strings (case sensitive). -/
def pyIn (needle hay : String) : Bool := subIn needle.data hay.data

/-- `lower()`-folded membership, used to model `re.search(pat, s, re.IGNORECASE)`
for literal patterns: case-insensitive containment. -/
def pyInCI (needle hay : String) : Bool := subIn needle.data (pyLowerL hay.data)

/-! ## Email classification engine: data model (`ai_email_analyzer.py` lines 13-43) -/

/-- The `EmailCategory` enum (lines 13-23). -/
inductive EmailCategory
  | important
  | spam
  | promotions
  | newsletters
  | social
  | old_unimportant
  | receipts
  | notifications
  | personal
  | work
deriving DecidableEq, Repr

/-- The `.value` attribute of an `EmailCategory` member. -/
def EmailCategory.value : EmailCategory → String
  | .important => "important"
  | .spam => "spam"
  | .promotions => "promotions"
  | .newsletters => "newsletters"
  | .social => "social"
  | .old_unimportant => "old_unimportant"
  | .receipts => "receipts"
  | .notifications => "notifications"
  | .personal => "personal"
  | .work => "work"

/-- The `EmailCategory(str)` enum constructor: `some` member whose value is
the string, else `none` (Python raises `ValueError`). -/
def EmailCategory.ofValue (s : String) : Option EmailCategory :=
  [EmailCategory.important, .spam, .promotions, .newsletters, .social,
   .old_unimportant, .receipts, .notifications, .personal, .work].find?
    (fun c => c.value = s)

/-- The `EmailAction` enum (lines 25-30). -/
inductive EmailAction
  | keep
  | delete
  | unsubscribe
  | archive
  | mark_important
deriving DecidableEq, Repr

/-- The `.value` attribute of an `EmailAction` member. -/
def EmailAction.value : EmailAction → String
  | .keep => "keep"
  | .delete => "delete"
  | .unsubscribe => "unsubscribe"
  | .archive => "archive"
  | .mark_important => "mark_important"

/-- The `EmailAction(str)` enum constructor. -/
def EmailAction.ofValue (s : String) : Option EmailAction :=
  [EmailAction.keep, .delete, .unsubscribe, .archive, .mark_important].find?
    (fun a => a.value = s)

/-- The ten members of the closed category enumeration. -/
def allCategories : List EmailCategory :=
  [.important, .spam, .promotions, .newsletters, .social,
   .old_unimportant, .receipts, .notifications, .personal, .work]

/-- The five members of the closed action enumeration. -/
def allActions : List EmailAction :=
  [.keep, .delete, .unsubscribe, .archive, .mark_important]

/-- The `EmailAnalysis` dataclass (lines 32-43): the triage decision.
`confidence` (a Python float) is modelled as `ℚ`, `priority_score` (a Python
int) as `ℤ`. -/
structure EmailAnalysis where
  category : EmailCategory
  action : EmailAction
  confidence : ℚ
  reasoning : String
  priority_score : ℤ
  has_unsubscribe : Bool
  is_automated : Bool
  sender_reputation : String
  content_summary : String
deriving DecidableEq, Repr

/-- A message record as consumed by both engines: the `email_data` dict.
A missing key and an empty-string value are not distinguished, matching the
`email_data.get(k, "")` / truthiness tests used by the source. -/
structure EmailData where
  subject : String := ""
  «from» : String := ""
  date : String := ""
  body_text : String := ""
  body_html : String := ""
  snippet : String := ""
deriving DecidableEq, Repr

/-! ## Rule-based fallback (`_get_default_analysis`, lines 292-351) -/

/-- Spam keyword list (line 299). -/
def spam_keywords : List String :=
  ["viagra", "lottery", "winner", "click here", "urgent", "congratulations",
   "free money", "nigerian prince"]

/-- Promotional keyword list (line 307). -/
def promo_keywords : List String :=
  ["sale", "offer", "deal", "discount", "%", "free", "limited time"]

/-- Newsletter keyword list (line 314). -/
def newsletter_keywords : List String :=
  ["newsletter", "update", "weekly", "monthly", "digest"]

/-- Receipt keyword list (line 321). -/
def receipt_keywords : List String :=
  ["receipt", "confirmation", "order", "invoice", "payment"]

/-- Social-platform sender token list (line 328). -/
def social_keywords : List String :=
  ["facebook", "linkedin", "twitter", "instagram"]

/-- `_get_default_analysis` (lines 292-351): deterministic rule-based
fallback classification over the lower-cased subject and sender. -/
def get_default_analysis (email_data : EmailData) : EmailAnalysis :=
  let subject := pyLower email_data.subject
  let sender := pyLower email_data.«from»
  let res :=
    if spam_keywords.any (fun k => pyIn k subject) then
      (EmailCategory.spam, EmailAction.delete, (1 : ℤ), "Detected spam keywords")
    else if promo_keywords.any (fun k => pyIn k subject) then
      (EmailCategory.promotions, EmailAction.unsubscribe, (3 : ℤ),
        "Promotional content detected")
    else if newsletter_keywords.any (fun k => pyIn k subject) then
      (EmailCategory.newsletters, EmailAction.archive, (4 : ℤ),
        "Newsletter content detected")
    else if receipt_keywords.any (fun k => pyIn k subject) then
      (EmailCategory.receipts, EmailAction.archive, (6 : ℤ),
        "Receipt/confirmation detected")
    else if social_keywords.any (fun k => pyIn k sender) then
      (EmailCategory.social, EmailAction.archive, (4 : ℤ),
        "Social media notification")
    else
      (EmailCategory.notifications, EmailAction.keep, (5 : ℤ),
        "Rule-based analysis (AI unavailable)")
  { category := res.1
    action := res.2.1
    confidence := 3/5
    reasoning := res.2.2.2
    priority_score := res.2.2.1
    has_unsubscribe := false
    is_automated := true
    sender_reputation := "unknown"
    content_summary := "Content analysis unavailable" }

/-! ## JSON values and the response sanitizer (`_clean_json_response`, lines 208-225) -/

/-- A parsed JSON scalar as produced by `json.loads`, as far as the analyzer
inspects one.  Numbers are modelled as `ℚ`; arrays/objects nested below the
top level are not inspected by the source and are collapsed into `other`. -/
inductive JsonVal
  | str (s : String)
  | num (q : ℚ)
  | bool (b : Bool)
  | null
  | other
deriving DecidableEq, Repr

/-- A top-level JSON object: key/value pairs in insertion order (Python
dicts preserve it); `json.loads` never produces duplicate keys. -/
abbrev Jdict := List (String × JsonVal)

/-- `d.get(k)` / `k in d` lookup. -/
def jget (d : Jdict) (k : String) : Option JsonVal :=
  match List.find? (fun kv => kv.1 = k) d with
  | some kv => some kv.2
  | none => none

/-- Replace the value stored at key `k` (position preserved), as Python
`d[k] = v` acts on an existing key. -/
def jset (k : String) (v : JsonVal) : Jdict → Jdict
  | [] => [(k, v)]
  | kv :: rest => if kv.1 = k then (k, v) :: rest else kv :: jset k v rest

/-- Character set stripped by `.strip("\x60\x60\x60json")`: Python strips any
of the set of characters, not the literal text. -/
def fence_json_chars : List Char := ['\x60', 'j', 's', 'o', 'n']

/-- Character set stripped by `.strip("\x60\x60\x60")`. -/
def fence_chars : List Char := ['\x60']

/-- The substring selected by `re.search(r'\x7b.*\x7d', text, re.DOTALL)`:
leftmost-longest, i.e. from the first `\x7b` to the last `\x7d` when the
former precedes the latter; when there is no match the text is kept
unchanged (lines 213-217). -/
def extractBraced (l : List Char) : List Char :=
  match l.findIdx? (fun c => c = '\x7b'), l.reverse.findIdx? (fun c => c = '\x7d') with
  | some i, some jr =>
    let j := l.length - 1 - jr
    if i < j then (l.drop i).take (j - i + 1) else l
  | _, _ => l

/-- Does the regex `,(\s*[}\]])` match starting at a comma whose remainder of
the input is `rest`?  (A run of whitespace followed by a closing brace or
bracket.) -/
def commaMatchesHere (rest : List Char) : Bool :=
  match (rest.dropWhile pyIsSpace).head? with
  | some c => c = '\x7d' || c = ']'
  | none => false

/-- `re.sub(r',(\s*[}\]])', r'\1', text)` (line 220): delete every comma
that begins a match of the pattern.  Since the kept replacement (whitespace
and closer) contains no comma, consuming only the comma and rescanning is
equivalent to the non-overlapping scan `re.sub` performs. -/
def removeTrailingCommas : List Char → List Char
  | [] => []
  | c :: rest =>
    if c = ',' && commaMatchesHere rest then removeTrailingCommas rest
    else c :: removeTrailingCommas rest

/-- `_clean_json_response` (lines 208-225): strip whitespace and fence
characters, extract the brace-delimited substring, drop trailing commas,
and remove embedded newline/carriage-return characters. -/
def clean_json_response (response_text : String) : String :=
  let t := pyStripL response_text.data
  let t := pyStripCharsL fence_json_chars t
  let t := pyStripCharsL fence_chars t
  let t := pyStripL t
  let t := extractBraced t
  let t := removeTrailingCommas t
  let t := t.filter (fun c => !(c = '\n' || c = '\r'))
  String.mk t

/-! ## Field validation and decision construction (lines 164-180 and 228-248) -/

/-- A Python exception propagating out of the analysed block: carried as a
message string.  `Except PyError α` models code that may raise. -/
abbrev PyError := String

/-- `str.strip().lower()` as applied to the raw enum fields (lines 239, 242).
Calling it on a non-string raises `AttributeError` (uncaught by the
validator's `except ValueError`). -/
def pyStripLower : JsonVal → Except PyError String
  | .str s => .ok (String.mk (pyLowerL (pyStripL s.data)))
  | _ => .error "AttributeError: object has no attribute strip"

/-- `_validate_analysis_data` (lines 228-248).  Returns `ok none` for the
`return False` outcomes (missing field, invalid enum value — `ValueError`
is caught), `ok (some d)` with the normalized dict for `return True`
(the function mutates `data` in place, lines 239 and 242), and `error` when
`.strip()` on a non-string raises `AttributeError` past the function. -/
def validate_analysis_data (data : Jdict) : Except PyError (Option Jdict) := do
  match jget data "category", jget data "action" with
  | none, _ => .ok none
  | _, none => .ok none
  | some catRaw, some _ =>
    let catStr ← pyStripLower catRaw
    let data := jset "category" (.str catStr) data
    match EmailCategory.ofValue catStr with
    | none => .ok none
    | some _ =>
      match jget data "action" with
      | none => .ok none
      | some actRaw =>
        let actStr ← pyStripLower actRaw
        let data := jset "action" (.str actStr) data
        match EmailAction.ofValue actStr with
        | none => .ok none
        | some _ => .ok (some data)

/-- Python `float(x)` on a JSON value.  `float` of a bool is 0.0/1.0; of
`None` it raises `TypeError`.  `float` of a numeric string succeeds in
Python; string arguments are conservatively modelled as failing (no claim
depends on numeric strings, and either outcome resolves to a returned
decision). -/
def pyFloat : JsonVal → Except PyError ℚ
  | .num q => .ok q
  | .bool b => .ok (if b then 1 else 0)
  | _ => .error "TypeError: float() argument"

/-- Python `int(x)` on a JSON value: floats truncate toward zero; bools map
to 0/1; `None` raises; numeric strings conservatively modelled as failing. -/
def pyInt : JsonVal → Except PyError ℤ
  | .num q => .ok (if q < 0 then ⌈q⌉ else ⌊q⌋)
  | .bool b => .ok (if b then 1 else 0)
  | _ => .error "TypeError: int() argument"

/-- Python `bool(x)` on a JSON value (total, never raises). -/
def pyBool : JsonVal → Bool
  | .str s => s ≠ ""
  | .num q => q ≠ 0
  | .bool b => b
  | .null => false
  | .other => true

/-- Rendering of a JSON value stored into a string-typed dataclass field
without conversion (lines 174, 178, 179): a string passes through; the
Python code would store a non-string value unconverted, which is modelled
by its printed form (no claim inspects that case). -/
def jsonFieldString (v : Option JsonVal) (dflt : String) : String :=
  match v with
  | none => dflt
  | some (.str s) => s
  | some w => reprStr w

/-- `EmailCategory(analysis_data["category"])` (line 171): the enum lookup
raises `KeyError` for a missing key and `ValueError` for anything that is
not a member's value string. -/
def categoryFromVal (v : Option JsonVal) : Except PyError EmailCategory :=
  match v with
  | none => .error "KeyError: category"
  | some (.str s) =>
    match EmailCategory.ofValue s with
    | some c => .ok c
    | none => .error "ValueError: not a valid EmailCategory"
  | some _ => .error "ValueError: not a valid EmailCategory"

/-- `EmailAction(analysis_data["action"])` (line 172). -/
def actionFromVal (v : Option JsonVal) : Except PyError EmailAction :=
  match v with
  | none => .error "KeyError: action"
  | some (.str s) =>
    match EmailAction.ofValue s with
    | some a => .ok a
    | none => .error "ValueError: not a valid EmailAction"
  | some _ => .error "ValueError: not a valid EmailAction"

/-- Construction of the `EmailAnalysis` object from the validated dict
(lines 170-180).  Coercion failures raise (and are caught by the caller's
`except`).  Note: `confidence` and `priority_score` are coerced but NOT
range-checked. -/
def construct_analysis (data : Jdict) : Except PyError EmailAnalysis := do
  let cat ← categoryFromVal (jget data "category")
  let act ← actionFromVal (jget data "action")
  let conf ← pyFloat ((jget data "confidence").getD (.num (1/2)))
  let prio ← pyInt ((jget data "priority_score").getD (.num 5))
  .ok
    { category := cat
      action := act
      confidence := conf
      reasoning := jsonFieldString (jget data "reasoning") ""
      priority_score := prio
      has_unsubscribe := pyBool ((jget data "has_unsubscribe").getD (.bool false))
      is_automated := pyBool ((jget data "is_automated").getD (.bool false))
      sender_reputation := jsonFieldString (jget data "sender_reputation") "unknown"
      content_summary := jsonFieldString (jget data "content_summary") "" }

/-! ## The prompt template and `str.format` (lines 78-123 and 137-142)

`analyze_email` builds its prompt with `self.analysis_prompt.format(...)`.
The template embeds a literal JSON example whose braces are not escaped
(`\x7b\x7b`/`\x7d\x7d`), so CPython's format parser reads the example's first
brace as a replacement field whose name is `\n            "category"` and
raises `KeyError` on every call; the surrounding `except Exception` then
routes the call to `_get_default_analysis`.  The format step is modelled as
a checked scan of the template (the substituted text itself is only handed
to the external generation service, which is an oracle here, so only the
raise/no-raise outcome of `format` is observable). -/

/-- Scanner state for the `str.format` template parser. -/
inductive FmtState
  | out
  | open1
  | inName (acc : List Char)
  | inSpec
  | close1
deriving DecidableEq, Repr

/-- One pass of CPython's `str.format` template parsing, keeping exactly the
information that decides raise vs return: `\x7b\x7b` and `\x7d\x7d` are literal
braces; a replacement field's name runs up to `:`, `!` or `\x7d` and must be
one of the supplied keyword names, else `KeyError`; a lone `\x7d` raises;
an unterminated field raises.  Format specs are skipped up to the next
`\x7d` (the analyzed template fails at its first field, before any spec). -/
def formatScanAux (keys : List String) : FmtState → List Char → Except PyError Unit
  | .out, [] => .ok ()
  | .out, c :: rest =>
    if c = '\x7b' then formatScanAux keys .open1 rest
    else if c = '\x7d' then formatScanAux keys .close1 rest
    else formatScanAux keys .out rest
  | .open1, [] => .error "ValueError: Single open brace encountered in format string"
  | .open1, c :: rest =>
    if c = '\x7b' then formatScanAux keys .out rest
    else if c = '\x7d' then .error "IndexError: Replacement index out of range"
    else formatScanAux keys (.inName [c]) rest
  | .inName _, [] => .error "ValueError: unterminated replacement field"
  | .inName acc, c :: rest =>
    if c = '\x7d' then
      if keys.contains (String.mk (acc.reverse)) then formatScanAux keys .out rest
      else .error ("KeyError: " ++ String.mk (acc.reverse))
    else if c = ':' || c = '!' then
      if keys.contains (String.mk (acc.reverse)) then formatScanAux keys .inSpec rest
      else .error ("KeyError: " ++ String.mk (acc.reverse))
    else formatScanAux keys (.inName (c :: acc)) rest
  | .inSpec, [] => .error "ValueError: unterminated replacement field"
  | .inSpec, c :: rest =>
    if c = '\x7d' then formatScanAux keys .out rest
    else formatScanAux keys .inSpec rest
  | .close1, [] => .error "ValueError: Single closing brace encountered in format string"
  | .close1, c :: rest =>
    if c = '\x7d' then formatScanAux keys .out rest
    else .error "ValueError: Single closing brace encountered in format string"

/-- The raise/return outcome of `template.format(**kwargs)` given the
keyword names supplied at the call site. -/
def py_format_check (keys : List String) (tpl : String) : Except PyError Unit :=
  formatScanAux keys .out tpl.data

/-- The keyword names supplied at the `.format` call (lines 137-142). -/
def analysis_format_keys : List String := ["subject", "sender", "date", "content"]

/-- `self.analysis_prompt` (lines 78-123), transcribed with every literal
brace written escaped (`\x7b`, `\x7d`).  Note the JSON example's braces are
single, not doubled: they are replacement-field syntax to `str.format`. -/
def analysis_prompt : String := "
        Analyze this email and provide a JSON response with the following structure:
        \x7b
            \"category\": \"one of: important, spam, promotions, newsletters, social, old_unimportant, receipts, notifications, personal, work\",
            \"action\": \"one of: keep, delete, unsubscribe, archive, mark_important\", 
            \"confidence\": 0.85,
            \"reasoning\": \"Brief explanation of why this categorization\",
            \"priority_score\": 7,
            \"has_unsubscribe\": true,
            \"is_automated\": true,
            \"sender_reputation\": \"one of: trusted, unknown, suspicious\",
            \"content_summary\": \"Brief 1-2 sentence summary of email content\"
        \x7d

        Email Details:
        Subject: \x7bsubject\x7d
        From: \x7bsender\x7d
        Date: \x7bdate\x7d
        Content: \x7bcontent\x7d
        
        Analysis Guidelines:
        - SPAM: Obvious spam, phishing, suspicious links
        - PROMOTIONS: Marketing emails, sales, deals
        - NEWSLETTERS: Regular updates, blogs, news
        - IMPORTANT: Banking, legal, urgent personal/work
        - OLD_UNIMPORTANT: Emails older than 30 days with low priority
        - RECEIPTS: Purchase confirmations, invoices
        - SOCIAL: Facebook, LinkedIn, social media notifications
        - PERSONAL: Personal conversations, family, friends
        - WORK: Job-related, professional communications
        
        Actions:
        - DELETE: Spam, very old unimportant emails
        - UNSUBSCRIBE: Unwanted marketing/newsletters
        - ARCHIVE: Keep but remove from inbox
        - KEEP: Important emails to keep in inbox
        - MARK_IMPORTANT: Critical emails needing attention
        
        Priority Score (1-10):
        10: Critical (banking, legal, urgent)
        7-9: Important (work, personal important)
        4-6: Medium (newsletters, notifications)
        1-3: Low (promotions, old emails)
        
        Please respond ONLY with valid JSON, no other text.
        "

/-! ## The classification engine (`analyze_email`, lines 125-206) -/

/-- `_call_gemini_with_retry` (lines 187-206): up to `n` attempts; the
outcome of the k-th `generate_content` call is supplied by the oracle
`attempts`; the first success is returned, `none` after all attempts
raised. -/
def call_gemini_with_retry (attempts : Nat → Except PyError String) :
    Nat → Nat → Option String
  | _, 0 => none
  | k, n + 1 =>
    match attempts k with
    | .ok r => some r
    | .error _ => call_gemini_with_retry attempts (k + 1) n

/-- The external collaborators of one `analyze_email` call: whether the
Gemini model initialized (`self.model` non-None), the outcome of each
`generate_content` attempt (`response.text` on success), and `json.loads`
restricted to top-level objects (`none` models `JSONDecodeError`, including
any non-object parse the analyzer would fail on while subscripting). -/
structure GeminiEnv where
  modelAvailable : Bool
  attempts : Nat → Except PyError String
  jsonParse : String → Option Jdict

/-- The body of `analyze_email`'s `try` block (lines 127-180): any `.error`
models an exception reaching the `except` handler.  Content preparation
(lines 134, 272-290) only feeds the `.format` arguments, whose values do not
influence the `KeyError` raised by the template scan, so it is not spelled
out. -/
def analyze_email_core (env : GeminiEnv) (email_data : EmailData) :
    Except PyError EmailAnalysis := do
  if !env.modelAvailable then
    .ok (get_default_analysis email_data)
  else
    match py_format_check analysis_format_keys analysis_prompt with
    | .error e => .error e
    | .ok _ =>
      match call_gemini_with_retry env.attempts 0 3 with
      | none => .ok (get_default_analysis email_data)
      | some txt =>
        let analysis_text := pyStrip txt
        let analysis_text := clean_json_response analysis_text
        match env.jsonParse analysis_text with
        | none => .ok (get_default_analysis email_data)
        | some analysis_data =>
          match validate_analysis_data analysis_data with
          | .error e => .error e
          | .ok none => .ok (get_default_analysis email_data)
          | .ok (some analysis_data) => construct_analysis analysis_data

/-- `analyze_email` (lines 125-185): the `try`/`except Exception` wrapper —
every raised exception resolves to the rule-based fallback, so the function
is total. -/
def analyze_email (env : GeminiEnv) (email_data : EmailData) : EmailAnalysis :=
  match analyze_email_core env email_data with
  | .ok a => a
  | .error _ => get_default_analysis email_data

/-- `get_deletion_candidates` (lines 353-365): the loop appending every
pair passing the three-part test, in input order.  The `min_confidence`
parameter defaults to `0.7` at the call site. -/
def get_deletion_candidates (analyzed_emails : List (EmailData × EmailAnalysis))
    (min_confidence : ℚ) : List (EmailData × EmailAnalysis) :=
  match analyzed_emails with
  | [] => []
  | (email, analysis) :: rest =>
    if analysis.action = EmailAction.delete ∧
        min_confidence ≤ analysis.confidence ∧
        analysis.priority_score ≤ 3 then
      (email, analysis) :: get_deletion_candidates rest min_confidence
    else
      get_deletion_candidates rest min_confidence

/-! ## Summary report (`generate_summary_report`, lines 379-417) -/

/-- Increment a string-keyed counter dict:
`d[k] = d.get(k, 0) + 1` (first-insertion order preserved). -/
def bumpCount (k : String) : List (String × Nat) → List (String × Nat)
  | [] => [(k, 1)]
  | (k', v) :: rest =>
    if k' = k then (k', v + 1) :: rest else (k', v) :: bumpCount k rest

/-- `priority_distribution[p] += 1` on the pre-initialized histogram:
`none` models the `KeyError` raised when `p` is not one of the existing
keys. -/
def bumpPrio (p : ℤ) : List (ℤ × Nat) → Option (List (ℤ × Nat))
  | [] => none
  | (k, v) :: rest =>
    if k = p then some ((k, v + 1) :: rest)
    else
      match bumpPrio p rest with
      | some rest' => some ((k, v) :: rest')
      | none => none

/-- `{i: 0 for i in range(1, 11)}` (line 388). -/
def initPrioDist : List (ℤ × Nat) :=
  [(1, 0), (2, 0), (3, 0), (4, 0), (5, 0), (6, 0), (7, 0), (8, 0), (9, 0), (10, 0)]

/-- `d.get(k, 0)` on a counter dict. -/
def countGet (d : List (String × Nat)) (k : String) : Nat :=
  match List.find? (fun kv => kv.1 = k) d with
  | some kv => kv.2
  | none => 0

/-- The dict returned by `generate_summary_report` for a non-empty batch
(lines 408-417).  `estimated_size_kb` (a float sum truncated by `int`) is
modelled over `ℚ`. -/
structure SummaryReport where
  total_emails : Nat
  categories : List (String × Nat)
  actions : List (String × Nat)
  priority_distribution : List (ℤ × Nat)
  estimated_size_kb : ℤ
  deletion_candidates : Nat
  unsubscribe_candidates : Nat
  avg_confidence : ℚ
deriving DecidableEq, Repr

/-- The aggregation loop of `generate_summary_report` (lines 392-406):
threads the three counters and the size accumulator over the batch;
`none` models the `KeyError` escaping when a priority score is outside
the pre-initialized 1..10 keys. -/
def summaryLoop :
    List (EmailData × EmailAnalysis) →
    List (String × Nat) → List (String × Nat) → List (ℤ × Nat) → ℚ →
    Option (List (String × Nat) × List (String × Nat) × List (ℤ × Nat) × ℚ)
  | [], cats, acts, prio, size => some (cats, acts, prio, size)
  | (email, analysis) :: rest, cats, acts, prio, size =>
    let cats := bumpCount analysis.category.value cats
    let acts := bumpCount analysis.action.value acts
    match bumpPrio analysis.priority_score prio with
    | none => none
    | some prio =>
      let content_length : ℚ :=
        (email.body_html.data.length : ℚ) + (email.body_text.data.length : ℚ)
      summaryLoop rest cats acts prio (size + content_length * (1/1000))

/-- `generate_summary_report` (lines 379-417).  `.ok none` models the empty
dict returned for an empty batch; `.error` models the `KeyError` raised out
of the function by a priority score outside 1..10. -/
def generate_summary_report (analyzed_emails : List (EmailData × EmailAnalysis)) :
    Except PyError (Option SummaryReport) :=
  let total_emails := analyzed_emails.length
  if total_emails = 0 then .ok none
  else
    match summaryLoop analyzed_emails [] [] initPrioDist 0 with
    | none => .error "KeyError: priority_score"
    | some (cats, acts, prio, size) =>
      .ok (some
        { total_emails := total_emails
          categories := cats
          actions := acts
          priority_distribution := prio
          estimated_size_kb := ⌊size⌋
          deletion_candidates := countGet acts "delete"
          unsubscribe_candidates := countGet acts "unsubscribe"
          avg_confidence :=
            (analyzed_emails.map (fun pair => pair.2.confidence)).sum / total_emails })

/-! ## Unsubscribe engine: data model (`smart_unsubscriber.py` lines 12-59) -/

/-- The `UnsubscribeResult` dataclass (lines 12-18). -/
structure UnsubscribeResult where
  success : Bool
  message : String
  method : String
  url : String
deriving DecidableEq, Repr

/-- An intent regex from the three pattern families: either a literal word,
or `a[-_]?b` — the two words joined directly or by a single hyphen or
underscore. -/
inductive IntentPattern
  | lit (w : String)
  | opt2 (a b : String)
deriving DecidableEq, Repr

/-- `re.search(pattern, s, re.IGNORECASE)` as a Boolean for the two pattern
shapes above (all pattern words are lower-case, so matching lower-cases the
subject text). -/
def patMatch (p : IntentPattern) (s : String) : Bool :=
  match p with
  | .lit w => pyInCI w s
  | .opt2 a b =>
    pyInCI (a ++ b) s || pyInCI (a ++ "-" ++ b) s || pyInCI (a ++ "_" ++ b) s

/-- `self.unsubscribe_patterns` (lines 30-39). -/
def unsubscribe_patterns : List IntentPattern :=
  [.lit "unsubscribe", .opt2 "opt" "out", .opt2 "remove" "me",
   .opt2 "stop" "emails", .opt2 "email" "preferences",
   .opt2 "manage" "subscription", .opt2 "leave" "list",
   .opt2 "cancel" "subscription"]

/-- `self.form_field_patterns` (lines 42-48). -/
def form_field_patterns : List IntentPattern :=
  [.lit "email", .lit "address", .lit "unsubscribe", .lit "remove",
   .opt2 "opt" "out"]

/-- `self.confirmation_patterns` (lines 51-59). -/
def confirmation_patterns : List IntentPattern :=
  [.lit "unsubscribe", .lit "confirm", .lit "yes", .lit "remove",
   .opt2 "opt" "out", .lit "continue", .lit "proceed"]

/-- An `input`/`select`/`textarea` element inside a form, as BeautifulSoup
reports it: `name` is `None` when the attribute is absent (line 114);
`ftype` is `.get('type', 'text')`; `value` is `.get('value', '')`;
`required` is whether the attribute is present (line 122). -/
structure PyInput where
  name : Option String := none
  ftype : String := "text"
  value : String := ""
  required : Bool := false
deriving DecidableEq, Repr

/-- A `form` element: `action` is `.get('action', '')`, `methodAttr` the
raw `method` attribute (`.get('method', 'get')`), `text` its `get_text()`,
and its input fields. -/
structure PyForm where
  action : String := ""
  methodAttr : String := "get"
  text : String := ""
  inputs : List PyInput := []
deriving DecidableEq, Repr

/-- A `button` or `input` element found by `find_unsubscribe_buttons`
(lines 139-153): `text` is `get_text()`, `value`/`btype`/`name` the raw
attributes. -/
structure PyButtonElem where
  text : String := ""
  value : String := ""
  btype : String := ""
  name : Option String := none
deriving DecidableEq, Repr

/-- The portion of a BeautifulSoup parse inspected by the unsubscriber:
forms, button/input elements, and anchors having an `href` attribute
(an anchor is its `href` paired with its `get_text()`). -/
structure PageDoc where
  forms : List PyForm := []
  buttons : List PyButtonElem := []
  anchors : List (String × String) := []
deriving DecidableEq, Repr

/-- One outbound HTTP request made through the shared session. -/
inductive Req
  | get (url : String) (params : List (String × String))
  | post (url : String) (data : List (String × String))
deriving DecidableEq, Repr

/-- An HTTP response: `url` is `response.url` (the final URL after
redirects), `status` is `response.status_code`, `text` the body. -/
structure HttpResp where
  url : String
  status : Nat
  text : String
deriving DecidableEq, Repr

/-- The external collaborators of the unsubscriber: the HTTP session
(`http req` is `.error` when the transport raises — connection failure or
timeout), BeautifulSoup (`parse`), `urllib.parse.urljoin` (`join`), and the
iteration order of Python's hash-based `set` (`setOrder`, consumed by
`list(set(links))` — constrained only by `SetOrderOK` below, since CPython
leaves it unspecified). -/
structure Web where
  http : Req → Except PyError HttpResp
  parse : String → PageDoc
  join : String → String → String
  setOrder : List String → List String

/-- A faithful `list(set(l))`: duplicate-free and containing exactly the
members of `l`, in an arbitrary order. -/
def SetOrderOK (f : List String → List String) : Prop :=
  ∀ l : List String, (f l).Nodup ∧ ∀ x : String, x ∈ f l ↔ x ∈ l

/-- `response.raise_for_status()`: raises for 4xx/5xx status codes. -/
def raise_for_status (r : HttpResp) : Except PyError HttpResp :=
  if 400 ≤ r.status ∧ r.status < 600 then
    .error ("HTTPError: " ++ toString r.status)
  else .ok r

/-! ## Link extraction (`extract_unsubscribe_links`, lines 61-82) -/

/-- Does `l` begin with an `https://` or `http://` scheme?  Returns the
scheme characters and the remainder. -/
def schemeSplit (l : List Char) : Option (List Char × List Char) :=
  if "https://".data.isPrefixOf l then some ("https://".data, l.drop 8)
  else if "http://".data.isPrefixOf l then some ("http://".data, l.drop 7)
  else none

/-- The non-overlapping left-to-right matches of
`re.findall(r'<(https?://[^>]+)>', content)` (lines 78-80): an angle
bracket, a scheme, at least one non-`>` character, a closing bracket.
The fuel argument (initially the input length, each step consuming at
least one character) keeps the recursion structural. -/
def findAngleUrlsAux : Nat → List Char → List String
  | 0, _ => []
  | _ + 1, [] => []
  | fuel + 1, c :: rest =>
    if c = '<' then
      match schemeSplit rest with
      | some (scheme, rest2) =>
        let body := rest2.takeWhile (fun d => d ≠ '>')
        match rest2.drop body.length with
        | '>' :: tail =>
          if 1 ≤ body.length then
            String.mk (scheme ++ body) :: findAngleUrlsAux fuel tail
          else findAngleUrlsAux fuel rest
        | _ => findAngleUrlsAux fuel rest
      | none => findAngleUrlsAux fuel rest
    else findAngleUrlsAux fuel rest

/-- All `<https?://...>` URLs in the raw content, in match order. -/
def findAngleUrls (content : String) : List String :=
  findAngleUrlsAux content.data.length content.data

/-- `extract_unsubscribe_links` (lines 61-82): hrefs of anchors whose
lower-cased, stripped text or raw href matches an intent pattern
(case-insensitively), then every angle-bracketed URL of the raw content,
passed through `list(set(...))` — i.e. through the oracle's `setOrder`. -/
def extract_unsubscribe_links (w : Web) (email_content : String) : List String :=
  let doc := w.parse email_content
  let anchor_links := doc.anchors.filterMap (fun a =>
    let link_text := String.mk (pyStripL (pyLowerL a.2.data))
    if unsubscribe_patterns.any (fun p => patMatch p link_text || patMatch p a.1)
    then some a.1 else none)
  let header_links := findAngleUrls email_content
  w.setOrder (anchor_links ++ header_links)

/-- The raw candidate list before the `set` conversion, used to state what
the extractor's output must consist of. -/
def rawCandidateLinks (w : Web) (email_content : String) : List String :=
  let doc := w.parse email_content
  (doc.anchors.filterMap (fun a =>
    let link_text := String.mk (pyStripL (pyLowerL a.2.data))
    if unsubscribe_patterns.any (fun p => patMatch p link_text || patMatch p a.1)
    then some a.1 else none)) ++ findAngleUrls email_content

/-! ## Page interaction (`visit_unsubscribe_page` … `attempt_link_unsubscribe`, lines 84-259) -/

/-- `visit_unsubscribe_page` (lines 84-93): GET with redirects, raise on
4xx/5xx, parse.  The second component of every page-interaction function is
the trace of HTTP requests it issued. -/
def visit_unsubscribe_page (w : Web) (url : String) :
    Except PyError (PageDoc × HttpResp) × List Req :=
  let req := Req.get url []
  match w.http req with
  | .error e => (.error e, [req])
  | .ok response =>
    match raise_for_status response with
    | .error e => (.error e, [req])
    | .ok response => (.ok (w.parse response.text, response), [req])

/-- The dict returned by `find_unsubscribe_form` (lines 125-130), minus the
raw `form_element` (a BeautifulSoup node the callers never inspect). -/
structure FormInfo where
  action : String
  method : String
  fields : List (String × PyInput)
deriving DecidableEq, Repr

/-- `fields[field_name] = {...}`: Python dict insertion — an existing key
keeps its position and its value is overwritten. -/
def fieldInsert (n : String) (i : PyInput) :
    List (String × PyInput) → List (String × PyInput)
  | [] => [(n, i)]
  | (k, v) :: rest =>
    if k = n then (k, i) :: rest else (k, v) :: fieldInsert n i rest

/-- The field-extraction loop of `find_unsubscribe_form` (lines 112-123):
inputs without a `name` attribute are skipped. -/
def formFields (inputs : List PyInput) : List (String × PyInput) :=
  inputs.foldl (fun acc i =>
    match i.name with
    | none => acc
    | some n => fieldInsert n i acc) []

/-- `find_unsubscribe_form` (lines 95-132): the first form whose text
matches an unsubscribe-intent pattern, with its lower-cased method and its
named fields. -/
def find_unsubscribe_form (doc : PageDoc) : Option FormInfo :=
  (doc.forms.find? (fun f =>
    unsubscribe_patterns.any (fun p => patMatch p f.text))).map
    (fun f =>
      { action := f.action
        method := String.mk (pyLowerL f.methodAttr.data)
        fields := formFields f.inputs })

/-- A record of `find_unsubscribe_buttons`' result list (lines 147-153 and
159-164): for button/input elements `btype` is the raw `type` attribute and
`href` is unused; anchor entries carry `btype = "link"` and their href. -/
structure ButtonInfo where
  text : String
  btype : String
  name : Option String := none
  value : String := ""
  href : String := ""
deriving DecidableEq, Repr

/-- `find_unsubscribe_buttons` (lines 134-166): button/input elements whose
combined text/value matches a confirmation pattern, then anchors whose text
does. -/
def find_unsubscribe_buttons (doc : PageDoc) : List ButtonInfo :=
  (doc.buttons.filterMap (fun b =>
    let button_text := String.mk (pyStripL (pyLowerL b.text.data))
    let button_value := String.mk (pyStripL (pyLowerL b.value.data))
    let text_to_check := button_text ++ " " ++ button_value
    if confirmation_patterns.any (fun p => patMatch p text_to_check) then
      some { text := if button_text ≠ "" then button_text else button_value
             btype := b.btype
             name := b.name
             value := b.value }
    else none)) ++
  (doc.anchors.filterMap (fun a =>
    let link_text := String.mk (pyStripL (pyLowerL a.2.data))
    if confirmation_patterns.any (fun p => patMatch p link_text) then
      some { text := link_text, btype := "link", href := a.1 }
    else none))

/-- Python truthiness of the optional `email` argument. -/
def emailTruthy : Option String → Bool
  | some s => s ≠ ""
  | none => false

/-- `data[k] = v` on the submission dict. -/
def dataInsert (k v : String) : List (String × String) → List (String × String)
  | [] => [(k, v)]
  | (k', v') :: rest =>
    if k' = k then (k, v) :: rest else (k', v') :: dataInsert k v rest

/-- The form-data preparation loop of `attempt_form_unsubscribe`
(lines 175-188). -/
def build_form_data (fields : List (String × PyInput)) (email : Option String) :
    List (String × String) :=
  fields.foldl (fun data kv =>
    let field_name := kv.1
    let info := kv.2
    if info.ftype = "hidden" then dataInsert field_name info.value data
    else if info.ftype = "email" && emailTruthy email then
      dataInsert field_name (email.getD "") data
    else if form_field_patterns.any (fun p => patMatch p field_name) then
      if emailTruthy email &&
          (pyIn "email" (pyLower field_name) || pyIn "address" (pyLower field_name)) then
        dataInsert field_name (email.getD "") data
      else if info.value ≠ "" then dataInsert field_name info.value data
      else data
    else if info.ftype = "submit" || info.ftype = "button" then
      if info.value ≠ "" then dataInsert field_name info.value data else data
    else data) []

/-- Success phrases checked after a form submission (lines 199-205). -/
def form_success_indicators : List String :=
  ["successfully unsubscribed", "removed from list", "unsubscribed",
   "opt out successful", "email preferences updated"]

/-- Success phrases checked after a link click (lines 235-240). -/
def link_success_indicators : List String :=
  ["successfully unsubscribed", "removed from list", "unsubscribed",
   "opt out successful"]

/-- `attempt_form_unsubscribe` (lines 168-224): resolve the action URL,
build the data, submit by the declared method, and classify the response;
every exception in the `try` body (transport failure or `raise_for_status`)
becomes a result with success `false` and method `"form"`. -/
def attempt_form_unsubscribe (w : Web) (form_data : FormInfo) (base_url : String)
    (email : Option String) : UnsubscribeResult × List Req :=
  let action_url := w.join base_url form_data.action
  let data := build_form_data form_data.fields email
  let req :=
    if form_data.method = "post" then Req.post action_url data
    else Req.get action_url data
  match w.http req with
  | .error e =>
    (⟨false, "Error: " ++ e, "form", action_url⟩, [req])
  | .ok response =>
    match raise_for_status response with
    | .error e => (⟨false, "Error: " ++ e, "form", action_url⟩, [req])
    | .ok response =>
      let response_text := String.mk (pyLowerL response.text.data)
      let success := form_success_indicators.any (fun ind => pyIn ind response_text)
      (⟨success, "Form submission completed. Status: " ++ toString response.status,
        "form", action_url⟩, [req])

/-- `attempt_link_unsubscribe` (lines 226-259): for an anchor record, GET
its resolved href and classify the response — a raised transport error is
caught and becomes a result with success `false` and method `"link"` (whose
url is the unresolved href, line 258).  For a non-anchor record the `try`
body's guard does not fire and the function falls through, returning
Python `None` — modelled as `none` — with no request issued. -/
def attempt_link_unsubscribe (w : Web) (link_data : ButtonInfo) (base_url : String) :
    Option UnsubscribeResult × List Req :=
  if link_data.btype = "link" then
    let url := w.join base_url link_data.href
    let req := Req.get url []
    match w.http req with
    | .error e => (some ⟨false, "Error: " ++ e, "link", link_data.href⟩, [req])
    | .ok response =>
      match raise_for_status response with
      | .error e => (some ⟨false, "Error: " ++ e, "link", link_data.href⟩, [req])
      | .ok response =>
        let response_text := String.mk (pyLowerL response.text.data)
        let success := link_success_indicators.any (fun ind => pyIn ind response_text)
        (some ⟨success, "Link clicked. Status: " ++ toString response.status,
          "link", url⟩, [req])
  else (none, [])

/-! ## Unsubscribe orchestration (`unsubscribe_from_email`, lines 261-325)

The `results` list is modelled as `List (Option UnsubscribeResult)` because
the Python loop can append a literal `None`: `attempt_link_unsubscribe`
returns `None` for a non-anchor control, line 308 appends it, and line 310's
`result.success` then raises `AttributeError`, which the loop's `except`
turns into an extra error result. -/

/-- `str(AttributeError)` raised by `None.success`. -/
def noneAttrMsg : String :=
  "\x27NoneType\x27 object has no attribute \x27success\x27"

/-- The inner `for button in buttons` loop (lines 307-311).  Returns the
appended results, the request trace, and whether the loop crashed with the
`AttributeError` above (a successful attempt only `break`s this inner
loop). -/
def buttonLoop (w : Web) (base_url : String) :
    List ButtonInfo → List (Option UnsubscribeResult) × List Req × Bool
  | [] => ([], [], false)
  | b :: bs =>
    match attempt_link_unsubscribe w b base_url with
    | (none, reqs) => ([none], reqs, true)
    | (some result, reqs) =>
      if result.success then ([some result], reqs, false)
      else
        let (l, q, crashed) := buttonLoop w base_url bs
        (some result :: l, reqs ++ q, crashed)

/-- One iteration of the `for link in unsubscribe_links` loop
(lines 289-323): the `try` body with its two exception sources (the page
visit, and the `AttributeError` from a `None` button result), and the
`except` handler appending an `"error"` result.  The third component is
`true` exactly when the outer `break` at line 303 fires — i.e. only when a
FORM attempt succeeds. -/
def processLink (w : Web) (user_email : Option String) (link : String) :
    List (Option UnsubscribeResult) × List Req × Bool :=
  match visit_unsubscribe_page w link with
  | (.error e, reqs) =>
    ([some ⟨false, "Error processing link: " ++ e, "error", link⟩], reqs, false)
  | (.ok (soup, response), reqs) =>
    let base_url := response.url
    let formStep :=
      match find_unsubscribe_form soup with
      | none => ([], [], false)
      | some form_data =>
        let (result, q) := attempt_form_unsubscribe w form_data base_url user_email
        ([some result], q, result.success)
    if formStep.2.2 then (formStep.1, reqs ++ formStep.2.1, true)
    else
      let (bl, bq, crashed) := buttonLoop w base_url (find_unsubscribe_buttons soup)
      if crashed then
        (formStep.1 ++ bl ++
          [some ⟨false, "Error processing link: " ++ noneAttrMsg, "error", link⟩],
         reqs ++ formStep.2.1 ++ bq, false)
      else (formStep.1 ++ bl, reqs ++ formStep.2.1 ++ bq, false)

/-- The outer loop over candidate links: stops early only when
`processLink` reports the line-303 `break`. -/
def linkLoop (w : Web) (user_email : Option String) :
    List String → List (Option UnsubscribeResult) × List Req
  | [] => ([], [])
  | link :: rest =>
    let (rs, reqs, stop) := processLink w user_email link
    if stop then (rs, reqs)
    else
      let (l, q) := linkLoop w user_email rest
      (rs ++ l, reqs ++ q)

/-- The single result appended when the message has no content (lines
267-274). -/
def no_content_result : UnsubscribeResult :=
  ⟨false, "No email content (HTML or text) found for unsubscribe.", "none", ""⟩

/-- The single result appended when no candidate links are found (lines
279-286). -/
def no_links_result : UnsubscribeResult :=
  ⟨false, "No unsubscribe links found in email", "none", ""⟩

/-- `unsubscribe_from_email` (lines 261-325): content selection by Python
truthiness (`body_html or body_text`), the two single-result early returns,
then the link loop.  Returns the results list plus the full HTTP request
trace. -/
def unsubscribe_from_email (w : Web) (email_data : EmailData)
    (user_email : Option String) :
    List (Option UnsubscribeResult) × List Req :=
  let email_content :=
    if email_data.body_html ≠ "" then email_data.body_html
    else email_data.body_text
  if email_content = "" then ([some no_content_result], [])
  else
    let unsubscribe_links := extract_unsubscribe_links w email_content
    if unsubscribe_links = [] then ([some no_links_result], [])
    else linkLoop w user_email unsubscribe_links

/-! ## Claim-statement helpers (analyzer side) -/

/-- Decidable cleanliness witness used by the sanitizer idempotence claim:
does the text contain a match of the trailing-comma pattern
`,(\s*[}\]])` anywhere? -/
def hasTrailingComma : List Char → Bool
  | [] => false
  | c :: rest => (c = ',' && commaMatchesHere rest) || hasTrailingComma rest

/-- Already-clean JSON object text, as the specification describes it: it
starts at its first brace and ends at its last (no fences, no surrounding
prose), contains no comma directly before a closing brace/bracket, and no
newline or carriage-return characters. -/
def IsCleanJson (s : String) : Prop :=
  s.data.head? = some '\x7b' ∧ s.data.getLast? = some '\x7d' ∧
  hasTrailingComma s.data = false ∧
  ∀ c ∈ s.data, ¬(c = '\n' ∨ c = '\r')

instance (s : String) : Decidable (IsCleanJson s) := by
  unfold IsCleanJson
  infer_instance

/-- The field name CPython reads out of the template's first unescaped
brace (the JSON example's opening line). -/
def category_field_name : String := "\n            \x22category\x22"

/-- The per-claim fallback description from the specification: precedence
spam, promotional, newsletter, receipt, social-sender, default, with
priorities 1, 3, 4, 6, 4, 5, over the case-folded subject and sender. -/
def spec_fallback_triple (subject sender : String) :
    EmailCategory × EmailAction × ℤ :=
  if spam_keywords.any (fun k => pyIn k subject) then
    (.spam, .delete, 1)
  else if promo_keywords.any (fun k => pyIn k subject) then
    (.promotions, .unsubscribe, 3)
  else if newsletter_keywords.any (fun k => pyIn k subject) then
    (.newsletters, .archive, 4)
  else if receipt_keywords.any (fun k => pyIn k subject) then
    (.receipts, .archive, 6)
  else if social_keywords.any (fun k => pyIn k sender) then
    (.social, .archive, 4)
  else (.notifications, .keep, 5)

/-- A `GeminiEnv` in which the generation service is disabled
(`self.model is None`). -/
def disabled_env : GeminiEnv :=
  { modelAvailable := false
    attempts := fun _ => .error "ServiceUnavailable"
    jsonParse := fun _ => none }

/-- The worked example of the specification: the sample promotional
message. -/
def sale_email : EmailData :=
  { subject := "Special 50% Off Sale - Limited Time!", «from» := "marketing@store.com" }

/-- The Boolean deletion-candidate test described by the specification:
action = delete, confidence at least the threshold, priority at most 3. -/
def deletion_test (min_confidence : ℚ) (p : EmailData × EmailAnalysis) : Bool :=
  decide (p.2.action = EmailAction.delete) &&
  decide (min_confidence ≤ p.2.confidence) &&
  decide (p.2.priority_score ≤ 3)

/-- A delete-decision sample with the given confidence and priority 2,
used by the deletion-filter example. -/
def delete_sample (c : ℚ) : EmailAnalysis :=
  { category := .old_unimportant, action := .delete, confidence := c
    reasoning := "", priority_score := 2, has_unsubscribe := false
    is_automated := true, sender_reputation := "unknown", content_summary := "" }

/-! ## Analyzer lemmas -/

set_option maxRecDepth 8000 in
/-- The `.format` call on the analysis prompt raises `KeyError` on the
template's first (unescaped) brace field, for any argument values. -/
lemma format_check_fails :
    py_format_check analysis_format_keys analysis_prompt =
      Except.error ("KeyError: " ++ category_field_name) := by rfl

/-- Every call of `analyze_email` resolves to the rule-based fallback:
with the model unavailable it falls back directly, and with the model
available the prompt `.format` raises `KeyError` into the
`except Exception` handler before any service call is made. -/
lemma analyze_email_eq_default (env : GeminiEnv) (email_data : EmailData) :
    analyze_email env email_data = get_default_analysis email_data := by
  unfold analyze_email analyze_email_core
  cases hm : env.modelAvailable with
  | false => simp
  | true => simp [format_check_fails]

/-- Field facts about the fallback decision, by case analysis over the five
keyword branches. -/
lemma get_default_analysis_fields (d : EmailData) :
    (get_default_analysis d).category ∈ allCategories ∧
    (get_default_analysis d).action ∈ allActions ∧
    (get_default_analysis d).confidence = 3/5 ∧
    1 ≤ (get_default_analysis d).priority_score ∧
    (get_default_analysis d).priority_score ≤ 10 ∧
    (get_default_analysis d).has_unsubscribe = false ∧
    (get_default_analysis d).is_automated = true ∧
    (get_default_analysis d).sender_reputation = "unknown" := by
  unfold get_default_analysis
  dsimp only
  repeat' split
  all_goals refine ⟨by decide, by decide, rfl, by decide, by decide, rfl, rfl, rfl⟩

/-- The fallback's claim-relevant projection agrees with the
specification's precedence description. -/
lemma get_default_analysis_triple (d : EmailData) :
    ((get_default_analysis d).category, (get_default_analysis d).action,
      (get_default_analysis d).priority_score) =
      spec_fallback_triple (pyLower d.subject) (pyLower d.«from») := by
  unfold get_default_analysis spec_fallback_triple
  dsimp only
  repeat' split
  all_goals simp_all

/-! ## Claims C1, C4, C5 -/

/-- C1: for every message record and every behavior of the generation
service, JSON parser, and retry outcomes, `analyze_email` returns normally
(it is a total function into `EmailAnalysis`: the `try`/`except Exception`
wrapper of lines 127-185 converts every raised exception into the fallback
decision) and the returned decision's category and action are members of
their closed enumerations. -/
theorem classify_total_and_enum_closed (env : GeminiEnv) (email_data : EmailData) :
    (analyze_email env email_data).category ∈ allCategories ∧
    (analyze_email env email_data).action ∈ allActions := by
  rw [analyze_email_eq_default]
  exact ⟨(get_default_analysis_fields email_data).1,
    (get_default_analysis_fields email_data).2.1⟩

/-- C4: every decision returned by `analyze_email` has confidence in
`[0, 1]` and priority in `1..10`.  This holds because every call resolves
to the fallback (the prompt `.format` raises before the AI-response
construction of lines 170-180 can run), and the fallback always sets
confidence `0.6` and a priority among 1, 3, 4, 5, 6; the construction path
itself performs no range validation. -/
theorem classify_confidence_priority_in_range (env : GeminiEnv) (email_data : EmailData) :
    0 ≤ (analyze_email env email_data).confidence ∧
    (analyze_email env email_data).confidence ≤ 1 ∧
    1 ≤ (analyze_email env email_data).priority_score ∧
    (analyze_email env email_data).priority_score ≤ 10 := by
  rw [analyze_email_eq_default]
  obtain ⟨-, -, hc, hp1, hp2, -⟩ := get_default_analysis_fields email_data
  refine ⟨?_, ?_, hp1, hp2⟩ <;> rw [hc] <;> norm_num

/-- C5: the rule-based fallback is a pure function of the case-folded
subject and sender, applies the spam / promotional / newsletter / receipt /
social precedence with priorities 1, 3, 4, 6, 4, 5, and always sets
confidence 0.6, is-automated true, has-unsubscribe false and reputation
"unknown"; with the generation service disabled, the sample promotional
message classifies as promotions / unsubscribe / priority 3 /
confidence 0.6. -/
theorem fallback_rule_based_spec :
    (∀ d : EmailData,
      ((get_default_analysis d).category, (get_default_analysis d).action,
        (get_default_analysis d).priority_score) =
        spec_fallback_triple (pyLower d.subject) (pyLower d.«from») ∧
      (get_default_analysis d).confidence = 3/5 ∧
      (get_default_analysis d).is_automated = true ∧
      (get_default_analysis d).has_unsubscribe = false ∧
      (get_default_analysis d).sender_reputation = "unknown") ∧
    (analyze_email disabled_env sale_email).category = EmailCategory.promotions ∧
    (analyze_email disabled_env sale_email).action = EmailAction.unsubscribe ∧
    (analyze_email disabled_env sale_email).priority_score = 3 ∧
    (analyze_email disabled_env sale_email).confidence = 3/5 := by
  refine ⟨fun d => ⟨get_default_analysis_triple d, ?_, rfl, rfl, rfl⟩, ?_, ?_, ?_, ?_⟩
  · exact (get_default_analysis_fields d).2.2.1
  all_goals rw [analyze_email_eq_default]
  · decide
  · decide
  · decide
  · rfl

/-! ## Claim C6: sanitizer idempotence on clean input -/

/-- A strip is the identity when neither end character satisfies the
predicate. -/
lemma pyStripBy_eq_self (p : Char → Bool) (a b : Char) (l : List Char)
    (hh : l.head? = some a) (ha : p a = false)
    (hl : l.getLast? = some b) (hb : p b = false) :
    pyStripBy p l = l := by
  unfold pyStripBy
  have h1 : l.dropWhile p = l := by
    cases l with
    | nil => rfl
    | cons x t =>
      simp only [List.head?_cons, Option.some.injEq] at hh
      subst hh
      simp [List.dropWhile_cons, ha]
  rw [h1]
  have h2 : l.reverse.dropWhile p = l.reverse := by
    cases hr : l.reverse with
    | nil => rfl
    | cons x t =>
      have hx : l.getLast? = some x := by
        rw [← List.head?_reverse, hr, List.head?_cons]
      rw [hl] at hx
      injection hx with hx
      subst hx
      simp [List.dropWhile_cons, hb]
  rw [h2, List.reverse_reverse]

/-- The brace-extraction regex is the identity on text that starts with
its first `\x7b` and ends with its last `\x7d`. -/
lemma extractBraced_eq_self (l : List Char)
    (hh : l.head? = some '\x7b') (hl : l.getLast? = some '\x7d') :
    extractBraced l = l := by
  obtain ⟨x, t, rfl⟩ : ∃ x t, l = x :: t := by
    cases l with
    | nil => simp at hh
    | cons x t => exact ⟨x, t, rfl⟩
  simp only [List.head?_cons, Option.some.injEq] at hh
  subst hh
  have hlen : 2 ≤ (('\x7b' :: t).length) := by
    cases t with
    | nil => simp at hl
    | cons y u => simp [Nat.succ_le_succ, Nat.le_add_left]
  have hfind : ('\x7b' :: t).findIdx? (fun c => c = '\x7b') = some 0 := by
    simp [List.findIdx?_cons]
  have hrev : ∃ u, ('\x7b' :: t).reverse = '\x7d' :: u := by
    cases hr : ('\x7b' :: t).reverse with
    | nil => simp at hr
    | cons y u =>
      have hy : ('\x7b' :: t).getLast? = some y := by
        rw [← List.head?_reverse, hr, List.head?_cons]
      rw [hl] at hy
      injection hy with hy
      subst hy
      exact ⟨u, rfl⟩
  obtain ⟨u, hu⟩ := hrev
  have hfind2 : List.findIdx? (fun c => c = '\x7d') (('\x7b' :: t).reverse) = some 0 := by
    rw [hu]
    simp [List.findIdx?_cons]
  unfold extractBraced
  rw [hfind, hfind2]
  have hpos : 0 < ('\x7b' :: t).length - 1 - 0 := by omega
  simp only [if_pos hpos, List.drop_zero]
  have harith : ('\x7b' :: t).length - 1 - 0 - 0 + 1 = ('\x7b' :: t).length := by omega
  rw [harith, List.take_length]

/-- Removing trailing commas is the identity when the pattern occurs
nowhere. -/
lemma removeTrailingCommas_eq_self (l : List Char)
    (h : hasTrailingComma l = false) :
    removeTrailingCommas l = l := by
  induction l with
  | nil => rfl
  | cons c rest ih =>
    unfold hasTrailingComma at h
    simp only [Bool.or_eq_false_iff, Bool.and_eq_false_iff] at h
    unfold removeTrailingCommas
    rcases h with ⟨h1, h2⟩
    rcases h1 with h1 | h1 <;> simp [h1, ih h2]

/-- C6: the response sanitizer returns already-clean JSON object text
unchanged — in particular it is idempotent on clean input. -/
theorem clean_json_response_id_on_clean (s : String) (h : IsCleanJson s) :
    clean_json_response s = s := by
  obtain ⟨hh, hl, hc, hnr⟩ := h
  unfold clean_json_response
  dsimp only
  rw [show pyStripL s.data = s.data from
      pyStripBy_eq_self _ _ _ _ hh (by decide) hl (by decide)]
  rw [show pyStripCharsL fence_json_chars s.data = s.data from
      pyStripBy_eq_self _ _ _ _ hh (by decide) hl (by decide)]
  rw [show pyStripCharsL fence_chars s.data = s.data from
      pyStripBy_eq_self _ _ _ _ hh (by decide) hl (by decide)]
  rw [show pyStripL s.data = s.data from
      pyStripBy_eq_self _ _ _ _ hh (by decide) hl (by decide)]
  rw [extractBraced_eq_self s.data hh hl]
  rw [removeTrailingCommas_eq_self s.data hc]
  have hkeep : ∀ a ∈ s.data, (!(decide (a = '\n') || decide (a = '\x0d'))) = true := by
    intro c hcmem
    simpa using hnr c hcmem
  rw [List.filter_eq_self.mpr hkeep]

/-- Witness for C6 at a concrete clean JSON object text. -/
theorem clean_json_response_id_on_clean_witness :
    IsCleanJson "\x7b\x22category\x22: \x22spam\x22, \x22priority_score\x22: 3\x7d" ∧
    clean_json_response "\x7b\x22category\x22: \x22spam\x22, \x22priority_score\x22: 3\x7d" =
      "\x7b\x22category\x22: \x22spam\x22, \x22priority_score\x22: 3\x7d" :=
  ⟨by decide, clean_json_response_id_on_clean _ (by decide)⟩

/-! ## Claim C7: deletion-candidate query -/

/-- C7: for every analyzed batch and threshold, the deletion-candidate
query returns exactly the pairs with action delete, confidence at least the
threshold (the call-site default is 0.7) and priority at most 3, in batch
order — i.e. it is the order-preserving filter by `deletion_test`; and on a
batch of two delete decisions of priority 2 with confidences 0.9 and 0.5,
only the first is returned at threshold 0.7. -/
theorem get_deletion_candidates_filter_spec :
    (∀ (analyzed_emails : List (EmailData × EmailAnalysis)) (min_confidence : ℚ),
      get_deletion_candidates analyzed_emails min_confidence =
        analyzed_emails.filter (deletion_test min_confidence)) ∧
    get_deletion_candidates
        [({}, delete_sample (9/10)), ({}, delete_sample (5/10))] (7/10) =
      [({}, delete_sample (9/10))] := by
  have hfilter : ∀ (l : List (EmailData × EmailAnalysis)) (t : ℚ),
      get_deletion_candidates l t = l.filter (deletion_test t) := by
    intro l t
    induction l with
    | nil => rfl
    | cons p rest ih =>
      obtain ⟨email, analysis⟩ := p
      unfold get_deletion_candidates
      by_cases h : analysis.action = EmailAction.delete ∧
          t ≤ analysis.confidence ∧ analysis.priority_score ≤ 3
      · have hd : deletion_test t (email, analysis) = true := by
          simp [deletion_test, h.1, h.2.1, h.2.2]
        rw [if_pos h, ih]
        simp [List.filter_cons, hd]
      · have hd : deletion_test t (email, analysis) = false := by
          rcases Bool.eq_false_or_eq_true (deletion_test t (email, analysis)) with hb | hb
          · exfalso
            apply h
            simp only [deletion_test, Bool.and_eq_true, decide_eq_true_eq] at hb
            exact ⟨hb.1.1, hb.1.2, hb.2⟩
          · exact hb
        rw [if_neg h, ih]
        simp [List.filter_cons, hd]
  refine ⟨hfilter, ?_⟩
  rw [hfilter]
  simp only [List.filter_cons, List.filter_nil, deletion_test, delete_sample]
  norm_num

/-! ## Claim C9: early returns of the orchestrator -/

/-- A web oracle whose transport always fails and whose parser finds
nothing; `list(set(...))` keeps first-seen order here. -/
def offline_web : Web :=
  { http := fun _ => .error "ConnectionError: network unreachable"
    parse := fun _ => {}
    join := fun _ u => u
    setOrder := fun l => l.dedup }

/-- C9 counterexample: the two early-return messages of
`unsubscribe_from_email` are not the claimed strings "no content found" /
"no unsubscribe links found" but the source's longer sentences. -/
theorem unsubscribe_message_text_counterexample :
    (unsubscribe_from_email offline_web {} none).1 = [some no_content_result] ∧
    no_content_result.message = "No email content (HTML or text) found for unsubscribe." ∧
    no_content_result.message ≠ "no content found" ∧
    (unsubscribe_from_email offline_web { body_text := "hello" } none).1 = [some no_links_result] ∧
    no_links_result.message = "No unsubscribe links found in email" ∧
    no_links_result.message ≠ "no unsubscribe links found" := by decide

/-- C9 (amended): a message with neither body yields exactly one result —
success false, method "none", message "No email content (HTML or text)
found for unsubscribe." — and a message whose content yields no candidate
links yields exactly one result — success false, method "none", message
"No unsubscribe links found in email"; in both cases the HTTP request
trace is empty. -/
theorem unsubscribe_early_returns :
    (∀ (w : Web) (d : EmailData) (ue : Option String),
      d.body_html = "" → d.body_text = "" →
      unsubscribe_from_email w d ue = ([some no_content_result], [])) ∧
    (∀ (w : Web) (d : EmailData) (ue : Option String),
      (if d.body_html ≠ "" then d.body_html else d.body_text) ≠ "" →
      extract_unsubscribe_links w
        (if d.body_html ≠ "" then d.body_html else d.body_text) = [] →
      unsubscribe_from_email w d ue = ([some no_links_result], [])) := by
  constructor
  · intro w d ue h1 h2
    unfold unsubscribe_from_email
    simp [h1, h2]
  · intro w d ue h1 h2
    unfold unsubscribe_from_email
    dsimp only
    rw [if_neg h1, h2]
    simp

/-- Witness for C9's amended claim at concrete empty-content and
no-links messages. -/
theorem unsubscribe_early_returns_witness :
    unsubscribe_from_email offline_web {} none = ([some no_content_result], []) ∧
    unsubscribe_from_email offline_web { body_text := "hello" } none =
      ([some no_links_result], []) :=
  ⟨unsubscribe_early_returns.1 offline_web {} none rfl rfl,
   unsubscribe_early_returns.2 offline_web { body_text := "hello" } none
    (by decide) (by decide)⟩

/-! ## Claim C3: attempt results and their methods -/

/-- The empty-fields unsubscribe form of the counterexample page. -/
def news_form : FormInfo :=
  { action := "http://news.example/unsub", method := "post", fields := [] }

/-- C3 counterexample: a form submission whose transport fails is recorded
with success false and method "form" — not the claimed method "error". -/
theorem attempt_form_failure_method_counterexample :
    (attempt_form_unsubscribe offline_web news_form "http://news.example/page" none).1 =
      ⟨false, "Error: ConnectionError: network unreachable", "form",
        "http://news.example/unsub"⟩ ∧
    ("form" : String) ≠ "error" := by decide

/-- C3 (amended): no attempt raises past the orchestrator (each function
below is total); a failing form submission is recorded with success false
and method "form"; a failing link click with method "link"; a non-anchor
control produces no result at all (Python `None`); and a failure while
FETCHING a candidate page is recorded by the orchestrator with success
false and method "error", after which processing continues (`false` in the
third component: no short-circuit). -/
theorem attempt_results_never_raise_methods :
    (∀ (w : Web) (fd : FormInfo) (base : String) (email : Option String),
      ((attempt_form_unsubscribe w fd base email).1).method = "form") ∧
    (∀ (w : Web) (ld : ButtonInfo) (base : String),
      (match (attempt_link_unsubscribe w ld base).1 with
       | some r => r.method = "link"
       | none => ld.btype ≠ "link")) ∧
    (∀ (w : Web) (ue : Option String) (link : String) (e : PyError),
      w.http (Req.get link []) = Except.error e →
      processLink w ue link =
        ([some ⟨false, "Error processing link: " ++ e, "error", link⟩],
         [Req.get link []], false)) := by
  refine ⟨?_, ?_, ?_⟩
  · intro w fd base email
    unfold attempt_form_unsubscribe
    dsimp only
    repeat' split
    all_goals rfl
  · intro w ld base
    unfold attempt_link_unsubscribe
    by_cases hb : ld.btype = "link"
    · rw [if_pos hb]
      dsimp only
      cases hh : w.http (Req.get (w.join base ld.href) []) with
      | error e => rfl
      | ok response =>
        dsimp only
        cases hr : raise_for_status response with
        | error e => rfl
        | ok response2 => rfl
    · rw [if_neg hb]
      exact hb
  · intro w ue link e he
    unfold processLink visit_unsubscribe_page
    dsimp only
    rw [he]

/-- Witness for C3's amended claim: a concrete page fetch whose transport
fails produces the single "error" result. -/
theorem attempt_results_never_raise_methods_witness :
    processLink offline_web none "http://x.example/u" =
      ([some ⟨false, "Error processing link: ConnectionError: network unreachable",
        "error", "http://x.example/u"⟩],
       [Req.get "http://x.example/u" []], false) :=
  attempt_results_never_raise_methods.2.2 offline_web none "http://x.example/u"
    "ConnectionError: network unreachable" rfl

/-! ## Claim C2: the missing short-circuit across candidate links -/

/-- First candidate unsubscribe link of the two-link message. -/
def first_link : String := "http://first.example/unsub"

/-- Second candidate unsubscribe link of the two-link message. -/
def second_link : String := "http://second.example/unsub"

/-- The confirmation anchor on the first candidate page. -/
def confirm_link : String := "http://first.example/confirm"

/-- The two-candidate-link message body. -/
def c2_email_html : String :=
  "<a href=\"http://first.example/unsub\">unsubscribe</a> <a href=\"http://second.example/unsub\">unsubscribe</a>"

/-- The first candidate page: no form, one confirmation anchor. -/
def c2_page_one : String :=
  "<a href=\"http://first.example/confirm\">unsubscribe</a>"

/-- The second candidate page: nothing actionable. -/
def c2_page_two : String := "no controls here"

/-- The concrete web environment of the two-link scenario: every page
resolves with status 200, the confirmation GET answers with a success
phrase, and `list(set(...))` keeps first-seen order. -/
def c2_web : Web :=
  { http := fun r =>
      if r = Req.get first_link [] then .ok ⟨first_link, 200, c2_page_one⟩
      else if r = Req.get confirm_link [] then
        .ok ⟨confirm_link, 200, "you have been unsubscribed"⟩
      else if r = Req.get second_link [] then .ok ⟨second_link, 200, c2_page_two⟩
      else .error "ConnectionError"
    parse := fun s =>
      if s = c2_email_html then
        { anchors := [(first_link, "unsubscribe"), (second_link, "unsubscribe")] }
      else if s = c2_page_one then { anchors := [(confirm_link, "unsubscribe")] }
      else {}
    join := fun _ u => u
    setOrder := fun l => l.dedup }

set_option maxRecDepth 4000 in
/-- C2 fails on the code (code bug): on a message with two candidate links
where the attempt on the first link succeeds (a link-click attempt,
recorded with success true), the orchestrator nevertheless issues a GET
request to the second link: the `break` at line 311 exits only the inner
button loop, never the link loop, so only a successful FORM attempt
(line 303) stops further links.  The claim and the specification require
that once any attempt result has success true no further candidate link is
fetched. -/
theorem unsubscribe_second_link_fetched_after_success :
    (unsubscribe_from_email c2_web { body_html := c2_email_html } none).1 =
      [some ⟨true, "Link clicked. Status: 200", "link", confirm_link⟩] ∧
    (unsubscribe_from_email c2_web { body_html := c2_email_html } none).2 =
      [Req.get first_link [], Req.get confirm_link [], Req.get second_link []] := by
  constructor <;> decide

/-! ## Claim C8: link extractor output -/

/-- The specification's worked single-anchor example content. -/
def c8_single_html : String := "<a href=\"https://x.com/u?t=1\">Unsubscribe</a>"

/-- The single candidate URL of that example. -/
def c8_single_url : String := "https://x.com/u?t=1"

/-- A two-anchor content used to exhibit the unspecified ordering. -/
def c8_two_html : String :=
  "<a href=\"http://a.example/unsubscribe\">unsubscribe</a> <a href=\"http://b.example/unsubscribe\">unsubscribe</a>"

/-- A set iteration order that happens to enumerate in reverse — equally
permitted by CPython's unordered `set`. -/
def revDedup (l : List String) : List String := (l.dedup).reverse

/-- `fun l => l.dedup` is a legitimate `list(set(...))` realization. -/
lemma setOrderOK_dedup : SetOrderOK (fun l => l.dedup) :=
  fun l => ⟨List.nodup_dedup l, fun _ => List.mem_dedup⟩

/-- `revDedup` is a legitimate `list(set(...))` realization. -/
lemma setOrderOK_revDedup : SetOrderOK revDedup := by
  intro l
  constructor
  · simpa [revDedup] using List.nodup_dedup l
  · intro x
    simp [revDedup, List.mem_reverse, List.mem_dedup]

/-- A duplicate-free list whose members are exactly `u` is `[u]`. -/
lemma eq_singleton_of_nodup_mem (r : List String) (u : String)
    (hn : r.Nodup) (hm : ∀ x, x ∈ r ↔ x = u) : r = [u] := by
  cases r with
  | nil => exact absurd ((hm u).mpr rfl) (List.not_mem_nil u)
  | cons x t =>
    have hx : x = u := (hm x).mp (List.mem_cons_self x t)
    subst hx
    cases t with
    | nil => rfl
    | cons y s =>
      exfalso
      have hy : y = x := (hm y).mp (by simp)
      rw [List.nodup_cons] at hn
      exact hn.1 (by simp [hy.symm])

/-- The parse of the two-anchor content used by the counterexample
oracle. -/
def c8_rev_web : Web :=
  { http := fun _ => .error "offline"
    parse := fun s =>
      if s = c8_two_html then
        { anchors := [("http://a.example/unsubscribe", "unsubscribe"),
                      ("http://b.example/unsubscribe", "unsubscribe")] }
      else {}
    join := fun _ u => u
    setOrder := revDedup }

/-- C8 counterexample: `extract_unsubscribe_links` ends in `list(set(...))`
whose iteration order CPython leaves unspecified; under the equally
legitimate reversed order the extractor returns the two first-seen
candidates in the opposite order, refuting the claimed stable first-seen
order. -/
theorem extract_links_order_counterexample :
    SetOrderOK c8_rev_web.setOrder ∧
    rawCandidateLinks c8_rev_web c8_two_html =
      ["http://a.example/unsubscribe", "http://b.example/unsubscribe"] ∧
    extract_unsubscribe_links c8_rev_web c8_two_html =
      ["http://b.example/unsubscribe", "http://a.example/unsubscribe"] ∧
    (["http://b.example/unsubscribe", "http://a.example/unsubscribe"] : List String) ≠
      ["http://a.example/unsubscribe", "http://b.example/unsubscribe"] :=
  ⟨setOrderOK_revDedup, by decide, by decide, by decide⟩

/-- C8 (amended): for every legitimate set iteration order the extractor
returns a duplicate-free list consisting exactly of the hrefs of anchors
whose lower-cased text or raw href matches an intent pattern unioned with
the angle-bracketed http(s) URLs of the raw content — but in an order the
code leaves unspecified rather than first-seen; on the single-anchor
example it returns exactly the one URL. -/
theorem extract_links_set_spec :
    (∀ (w : Web) (content : String), SetOrderOK w.setOrder →
      (extract_unsubscribe_links w content).Nodup ∧
      (∀ u, u ∈ extract_unsubscribe_links w content ↔
        u ∈ rawCandidateLinks w content)) ∧
    (∀ w : Web, SetOrderOK w.setOrder →
      w.parse c8_single_html = { anchors := [(c8_single_url, "Unsubscribe")] } →
      extract_unsubscribe_links w c8_single_html = [c8_single_url]) := by
  have hraw : ∀ (w : Web) (content : String),
      extract_unsubscribe_links w content =
        w.setOrder (rawCandidateLinks w content) := fun w content => rfl
  constructor
  · intro w content hok
    rw [hraw]
    exact ⟨(hok _).1, fun u => (hok _).2 u⟩
  · intro w hok hparse
    rw [hraw]
    have hr : rawCandidateLinks w c8_single_html = [c8_single_url] := by
      unfold rawCandidateLinks
      dsimp only
      rw [hparse]
      decide
    rw [hr]
    refine eq_singleton_of_nodup_mem _ _ (hok _).1 ?_
    intro x
    rw [(hok _).2 x]
    simp

/-- Witness for C8's amended claim: a concrete oracle parsing the sample
anchor, with first-seen set order. -/
def c8_dedup_web : Web :=
  { http := fun _ => .error "offline"
    parse := fun s =>
      if s = c8_single_html then { anchors := [(c8_single_url, "Unsubscribe")] }
      else {}
    join := fun _ u => u
    setOrder := fun l => l.dedup }

/-- Witness for C8's amended claim at the specification's worked example. -/
theorem extract_links_set_spec_witness :
    extract_unsubscribe_links c8_dedup_web c8_single_html = [c8_single_url] :=
  extract_links_set_spec.2 c8_dedup_web setOrderOK_dedup (by decide)

/-! ## Claim C10: the summary report -/

/-- Sum of a string-keyed counter dict's values. -/
def countVals (d : List (String × Nat)) : Nat := (d.map Prod.snd).sum

/-- Sum of the priority histogram's values. -/
def prioVals (d : List (ℤ × Nat)) : Nat := (d.map Prod.snd).sum

/-- Incrementing a counter adds one to its value sum. -/
lemma countVals_bump (k : String) (d : List (String × Nat)) :
    countVals (bumpCount k d) = countVals d + 1 := by
  induction d with
  | nil => rfl
  | cons kv rest ih =>
    obtain ⟨k', v⟩ := kv
    unfold bumpCount
    by_cases h : k' = k
    · simp [h, countVals]
      omega
    · simp only [if_neg h]
      simp [countVals] at ih ⊢
      omega

/-- The histogram update succeeds exactly on existing keys, adds one to the
value sum, and preserves the key list. -/
lemma bumpPrio_spec (p : ℤ) (d : List (ℤ × Nat)) :
    (p ∈ d.map Prod.fst →
      ∃ d', bumpPrio p d = some d' ∧ prioVals d' = prioVals d + 1 ∧
        d'.map Prod.fst = d.map Prod.fst) ∧
    (p ∉ d.map Prod.fst → bumpPrio p d = none) := by
  induction d with
  | nil => exact ⟨by simp, fun _ => rfl⟩
  | cons kv rest ih =>
    obtain ⟨k, v⟩ := kv
    constructor
    · intro hmem
      by_cases h : k = p
      · refine ⟨(k, v + 1) :: rest, ?_, ?_, ?_⟩
        · unfold bumpPrio
          rw [if_pos h]
        · simp [prioVals]
          omega
        · simp
      · have hmem' : p ∈ rest.map Prod.fst := by
          simp only [List.map_cons, List.mem_cons] at hmem
          rcases hmem with hmem | hmem
          · exact absurd hmem.symm h
          · exact hmem
        obtain ⟨d', hd', hsum, hkeys⟩ := ih.1 hmem'
        refine ⟨(k, v) :: d', ?_, ?_, ?_⟩
        · unfold bumpPrio
          rw [if_neg h, hd']
        · simp [prioVals] at hsum ⊢
          omega
        · simp [hkeys]
    · intro hmem
      have h : ¬(k = p) := fun hk => hmem (by simp [hk])
      have hmem' : p ∉ rest.map Prod.fst := fun hr => hmem (by simp [hr])
      unfold bumpPrio
      rw [if_neg h, ih.2 hmem']

/-- The aggregation loop succeeds when every priority is an existing
histogram key, and then each counter's value sum grows by the batch
length while the histogram keys are preserved. -/
lemma summaryLoop_ok (l : List (EmailData × EmailAnalysis)) :
    ∀ cats acts prio (size : ℚ),
      (∀ pair ∈ l, pair.2.priority_score ∈ prio.map Prod.fst) →
      ∃ cats' acts' prio' size',
        summaryLoop l cats acts prio size = some (cats', acts', prio', size') ∧
        countVals cats' = countVals cats + l.length ∧
        countVals acts' = countVals acts + l.length ∧
        prioVals prio' = prioVals prio + l.length ∧
        prio'.map Prod.fst = prio.map Prod.fst := by
  induction l with
  | nil =>
    intro cats acts prio size _
    exact ⟨cats, acts, prio, size, rfl, by simp, by simp, by simp, rfl⟩
  | cons x rest ih =>
    intro cats acts prio size h
    obtain ⟨email, analysis⟩ := x
    have hmem := h (email, analysis) (by simp)
    obtain ⟨prio1, hsome, hsum, hkeys⟩ := (bumpPrio_spec _ prio).1 hmem
    have hrest : ∀ pair ∈ rest, pair.2.priority_score ∈ prio1.map Prod.fst := by
      intro q hq
      rw [hkeys]
      exact h q (by simp [hq])
    obtain ⟨c', a', p', s', heq, h1, h2, h3, h4⟩ := ih _ _ _ _ hrest
    refine ⟨c', a', p', s', ?_, ?_, ?_, ?_, ?_⟩
    · unfold summaryLoop
      rw [hsome]
      exact heq
    · rw [h1, countVals_bump]
      simp
      omega
    · rw [h2, countVals_bump]
      simp
      omega
    · rw [h3, hsum]
      simp
      omega
    · rw [h4, hkeys]

/-- The aggregation loop fails (the `KeyError` escapes) whenever some
pair's priority is not an existing histogram key. -/
lemma summaryLoop_err (l : List (EmailData × EmailAnalysis)) :
    ∀ cats acts prio (size : ℚ),
      (∃ pair ∈ l, pair.2.priority_score ∉ prio.map Prod.fst) →
      summaryLoop l cats acts prio size = none := by
  induction l with
  | nil =>
    intro _ _ _ _ h
    simp at h
  | cons x rest ih =>
    intro cats acts prio size h
    obtain ⟨email, analysis⟩ := x
    unfold summaryLoop
    by_cases hx : analysis.priority_score ∈ prio.map Prod.fst
    · obtain ⟨prio1, hsome, -, hkeys⟩ := (bumpPrio_spec _ prio).1 hx
      rw [hsome]
      apply ih
      obtain ⟨q, hq, hbad⟩ := h
      rcases List.mem_cons.mp hq with rfl | hq'
      · exact absurd hx hbad
      · exact ⟨q, hq', by rw [hkeys]; exact hbad⟩
    · rw [(bumpPrio_spec _ prio).2 hx]

/-- The pre-initialized histogram's keys are exactly `1..10`. -/
lemma initPrioDist_keys_mem (p : ℤ) :
    p ∈ initPrioDist.map Prod.fst ↔ 1 ≤ p ∧ p ≤ 10 := by
  simp [initPrioDist]
  omega

/-- C10: for every non-empty batch whose priority scores all lie in 1..10,
`generate_summary_report` returns a report whose category counts, action
counts and priority histogram each sum to the batch size, and whose
average confidence is the arithmetic mean; and when some priority score
lies outside 1..10 the histogram update's `KeyError` escapes instead of a
report being produced. -/
theorem generate_summary_report_totals (l : List (EmailData × EmailAnalysis))
    (hne : l ≠ []) :
    ((∀ pair ∈ l, 1 ≤ pair.2.priority_score ∧ pair.2.priority_score ≤ 10) →
      ∃ r, generate_summary_report l = .ok (some r) ∧
        countVals r.categories = l.length ∧
        countVals r.actions = l.length ∧
        prioVals r.priority_distribution = l.length ∧
        r.avg_confidence =
          (l.map (fun pair => pair.2.confidence)).sum / l.length) ∧
    ((∃ pair ∈ l, pair.2.priority_score < 1 ∨ 10 < pair.2.priority_score) →
      ∃ e, generate_summary_report l = .error e) := by
  have hlen : ¬(l.length = 0) := by
    simpa [List.length_eq_zero] using hne
  constructor
  · intro h
    have hmem : ∀ pair ∈ l, pair.2.priority_score ∈ initPrioDist.map Prod.fst := by
      intro q hq
      rw [initPrioDist_keys_mem]
      exact h q hq
    obtain ⟨c', a', p', s', heq, h1, h2, h3, h4⟩ :=
      summaryLoop_ok l [] [] initPrioDist 0 hmem
    have hrep : generate_summary_report l = .ok (some
        { total_emails := l.length
          categories := c'
          actions := a'
          priority_distribution := p'
          estimated_size_kb := ⌊s'⌋
          deletion_candidates := countGet a' "delete"
          unsubscribe_candidates := countGet a' "unsubscribe"
          avg_confidence :=
            (l.map (fun pair => pair.2.confidence)).sum / l.length }) := by
      unfold generate_summary_report
      dsimp only
      rw [if_neg hlen, heq]
    refine ⟨_, hrep, ?_, ?_, ?_, rfl⟩
    · rw [h1]
      simp [countVals]
    · rw [h2]
      simp [countVals]
    · rw [h3]
      simp [prioVals, initPrioDist]
  · intro h
    obtain ⟨q, hq, hbad⟩ := h
    have hnone : summaryLoop l [] [] initPrioDist 0 = none := by
      apply summaryLoop_err
      refine ⟨q, hq, ?_⟩
      rw [initPrioDist_keys_mem]
      omega
    refine ⟨"KeyError: priority_score", ?_⟩
    unfold generate_summary_report
    dsimp only
    rw [if_neg hlen, hnone]

/-- A keep-decision sample of priority 5 for the report witness. -/
def keep_sample : EmailAnalysis :=
  { category := .notifications, action := .keep, confidence := 1/2
    reasoning := "", priority_score := 5, has_unsubscribe := false
    is_automated := true, sender_reputation := "unknown", content_summary := "" }

/-- A decision with priority score 42, outside the histogram keys. -/
def out_of_range_sample : EmailAnalysis :=
  { category := .spam, action := .delete, confidence := 1/2
    reasoning := "", priority_score := 42, has_unsubscribe := false
    is_automated := true, sender_reputation := "unknown", content_summary := "" }

/-- The well-formed two-message batch of the report witness. -/
def report_good_batch : List (EmailData × EmailAnalysis) :=
  [({}, delete_sample (9/10)), ({}, keep_sample)]

/-- The batch containing an out-of-range priority score. -/
def report_bad_batch : List (EmailData × EmailAnalysis) :=
  [({}, keep_sample), ({}, out_of_range_sample)]

/-- Witness for C10 at a concrete two-message batch and a concrete batch
with an out-of-range priority. -/
theorem generate_summary_report_totals_witness :
    (∃ r, generate_summary_report report_good_batch = .ok (some r) ∧
      countVals r.categories = report_good_batch.length ∧
      countVals r.actions = report_good_batch.length ∧
      prioVals r.priority_distribution = report_good_batch.length ∧
      r.avg_confidence =
        (report_good_batch.map (fun pair => pair.2.confidence)).sum /
          report_good_batch.length) ∧
    (∃ e, generate_summary_report report_bad_batch = .error e) :=
  ⟨(generate_summary_report_totals report_good_batch (by decide)).1 (by decide),
   (generate_summary_report_totals report_bad_batch (by decide)).2 (by decide)⟩
